import Mathlib

/-!
Shallow embedding of `apollodao/cosmos-vault-standard`:
  * `src/msg.rs` — the vault standard message protocol (execute and query
    enums with their extension payload slots);
  * `mock-vault/src/test_helpers.rs` — the approximate-equality assertion
    `assert_almost_eq` and the `VaultRobot` test-robot trait.

Numeric conventions: `cosmwasm_std::Uint128` is modelled as `Nat` together
with the bound `< 2^128` where it matters; `cosmwasm_std::Decimal` is a
`Uint128` count of atomics with 18 decimal places, so it is modelled as a
`Nat` of atomics.  Rust panics (`unwrap`, `panic!`, arithmetic aborts inside
`Decimal` operations) are modelled as the `error` side of `Except PanicKind`.
-/

namespace CosmosVaultStandard

/-- `Decimal::DECIMAL_FRACTIONAL`: one unit is `10^18` atomics. -/
def DECIMAL_FRACTIONAL : Nat := 10 ^ 18

/-- `u128::MAX`, the largest value a `Uint128` (and hence a `Decimal`'s
atomics field) can hold. -/
def UINT128_MAX : Nat := 2 ^ 128 - 1

/-- The distinct ways the embedded Rust code can panic.  `assertionFailed`
carries the data interpolated into the `panic!` format string of
`assert_almost_eq` (left, right, the computed relative difference and the
allowed maximum). -/
inductive PanicKind where
  | unwrapFailed
  | divisionByZero
  | divisionOverflow
  | assertionFailed (left right relDiff maxRelDiff : Nat)
  deriving DecidableEq, Repr

namespace Decimal

/-- Horner accumulation of a digit string, as Rust's integer `from_str`
does. -/
def digitsToNat : List Char → Nat → Nat
  | [], acc => acc
  | c :: cs, acc => digitsToNat cs (acc * 10 + (c.toNat - ('0').toNat))

/-- Rust `str::parse::<u128>` (via `Uint128::from_str`): an optional leading
`+`, then one or more ASCII digits, and the value must fit in 128 bits. -/
def parseU128 (cs : List Char) : Option Nat :=
  let ds := match cs with
    | '+' :: rest => rest
    | other => other
  if ds.isEmpty then none
  else if ds.all Char.isDigit then
    let n := digitsToNat ds 0
    if n ≤ UINT128_MAX then some n else none
  else none

/-- Rust `str::split('.')`: splits at every dot and always yields at least
one (possibly empty) piece. -/
def splitDots : List Char → List (List Char)
  | [] => [[]]
  | '.' :: rest => [] :: splitDots rest
  | c :: rest =>
    match splitDots rest with
    | [] => [[c]]
    | p :: ps => (c :: p) :: ps

/-- `Decimal::from_str`: `whole[.fractional]` with at most 18 fractional
digits; each part parses as a `Uint128`; the atomics `whole * 10^18 +
fractional * 10^(18 - len)` must fit in 128 bits; more than one dot is
rejected.  `none` stands for any `Err` result. -/
def from_str (input : String) : Option Nat :=
  match splitDots input.data with
  | [] => none
  | whole_part :: parts_rest =>
    match parseU128 whole_part with
    | none => none
    | some whole =>
      if whole * DECIMAL_FRACTIONAL ≤ UINT128_MAX then
        let atomics := whole * DECIMAL_FRACTIONAL
        match parts_rest with
        | [] => some atomics
        | fractional_part :: parts_rest2 =>
          match parseU128 fractional_part with
          | none => none
          | some fractional =>
            if fractional_part.length ≤ 18 then
              let exp := 18 - fractional_part.length
              let atomics2 := atomics + fractional * 10 ^ exp
              if atomics2 ≤ UINT128_MAX then
                if parts_rest2.isEmpty then some atomics2 else none
              else none
            else none
      else none

/-- `Decimal::abs_diff` (via `Uint128::abs_diff`): `if self < other { other -
self } else { self - other }` on the atomics. -/
def abs_diff (a b : Nat) : Nat :=
  if a < b then b - a else a - b

/-- `impl Div for Decimal`, which calls `checked_from_ratio(self.atomics,
other.atomics)` computing `self.atomics * 10^18 / other.atomics` with a
256-bit intermediate, and panics on a zero denominator or on a quotient
exceeding `u128::MAX`. -/
def div (a b : Nat) : Except PanicKind Nat :=
  if b = 0 then Except.error PanicKind.divisionByZero
  else
    let r := a * DECIMAL_FRACTIONAL / b
    if r ≤ UINT128_MAX then Except.ok r else Except.error PanicKind.divisionOverflow

end Decimal

/-- `assert_almost_eq(left, right, max_rel_diff)` from
`mock-vault/src/test_helpers.rs`: parse `max_rel_diff` (panicking on `Err`
via `unwrap`), take `largest = max(left, right)`, compute `rel_diff =
left.abs_diff(right) / largest` with `Decimal` division (which can itself
panic), and `panic!` with a message carrying both values and the ratio when
`rel_diff > max_rel_diff`. -/
def assert_almost_eq (left right : Nat) (max_rel_diff : String) : Except PanicKind Unit :=
  match Decimal.from_str max_rel_diff with
  | none => Except.error PanicKind.unwrapFailed
  | some maxRelDiff =>
    let largest := Nat.max left right
    match Decimal.div (Decimal.abs_diff left right) largest with
    | Except.error e => Except.error e
    | Except.ok relDiff =>
      if relDiff > maxRelDiff then
        Except.error (PanicKind.assertionFailed left right relDiff maxRelDiff)
      else
        Except.ok ()

/-- The relative difference `|left - right| / max(left, right)` that
`assert_almost_eq` computes (in atomics, with truncating division), for use
in specification statements. -/
def rel_diff (left right : Nat) : Nat :=
  Decimal.abs_diff left right * DECIMAL_FRACTIONAL / Nat.max left right

/-- Discriminator: is a panic the `panic!` raised by `assert_almost_eq`
itself (as opposed to a panic coming from `unwrap` or from `Decimal`
arithmetic)? -/
def PanicKind.isAssertionFailure : PanicKind → Bool
  | .assertionFailed _ _ _ _ => true
  | _ => false

/-! ## The message protocol of `src/msg.rs`

The extension payload types live in `src/extensions/{keeper,lockup,
force_unlock}.rs`, which are not among the provided sources; the base
protocol never inspects them, so each is modelled from the spec as a
single-constructor placeholder ("an optional, self-describing protocol
addendum ... the base protocol does not interpret it").  The enums below
model the configuration in which all three cargo features (`keeper`,
`lockup`, `force-unlock`) are enabled, so every `#[cfg(feature = ...)]`
variant of `msg.rs` is present. -/

/-- Modelled from the spec: payload of the keeper extension's execute
messages (`src/extensions/keeper.rs` is missing); kept abstract because the
base protocol does not interpret it. -/
inductive KeeperExecuteMsg where
  | payload
  deriving DecidableEq, Repr

/-- Modelled from the spec: payload of the lockup extension's execute
messages (`src/extensions/lockup.rs` is missing). -/
inductive LockupExecuteMsg where
  | payload
  deriving DecidableEq, Repr

/-- Modelled from the spec: payload of the force-unlock extension's execute
messages (`src/extensions/force_unlock.rs` is missing). -/
inductive ForceUnlockExecuteMsg where
  | payload
  deriving DecidableEq, Repr

/-- Modelled from the spec: payload of the keeper extension's queries. -/
inductive KeeperQueryMsg where
  | payload
  deriving DecidableEq, Repr

/-- Modelled from the spec: payload of the lockup extension's queries. -/
inductive LockupQueryMsg where
  | payload
  deriving DecidableEq, Repr

/-- `ExtensionExecuteMsg` of `src/msg.rs` with all features enabled: the
`Keeper`, `Lockup` and `ForceUnlock` variants. -/
inductive ExtensionExecuteMsg where
  | Keeper (msg : KeeperExecuteMsg)
  | Lockup (msg : LockupExecuteMsg)
  | ForceUnlock (msg : ForceUnlockExecuteMsg)
  deriving DecidableEq, Repr

/-- `ExtensionQueryMsg` of `src/msg.rs` with all features enabled: only the
`Keeper` and `Lockup` variants exist. -/
inductive ExtensionQueryMsg where
  | Keeper (msg : KeeperQueryMsg)
  | Lockup (msg : LockupQueryMsg)
  deriving DecidableEq, Repr

/-- The serde wire tag of an `ExtensionExecuteMsg` variant (`#[cw_serde]`
renames variants to snake_case). -/
def ExtensionExecuteMsg.tag : ExtensionExecuteMsg → String
  | .Keeper _ => "keeper"
  | .Lockup _ => "lockup"
  | .ForceUnlock _ => "force_unlock"

/-- The serde wire tag of an `ExtensionQueryMsg` variant. -/
def ExtensionQueryMsg.tag : ExtensionQueryMsg → String
  | .Keeper _ => "keeper"
  | .Lockup _ => "lockup"

/-- `VaultStandardExecuteMsg<T>` of `src/msg.rs`: `Deposit { amount,
recipient }`, `Redeem { recipient, amount }`, and the generic
`VaultExtension(T)` slot. -/
inductive VaultStandardExecuteMsg (T : Type) where
  | Deposit (amount : Nat) (recipient : Option String)
  | Redeem (recipient : Option String) (amount : Nat)
  | VaultExtension (ext : T)
  deriving DecidableEq, Repr

/-- The default instantiation `VaultStandardExecuteMsg<ExtensionExecuteMsg>`.
Modelled from the spec for the mock vault: `crate::msg::ExecuteMsg` of the
`mock-vault` crate (its `msg.rs` is missing) is the standard execute enum
with the default extension payload. -/
def ExecuteMsg : Type := VaultStandardExecuteMsg ExtensionExecuteMsg

/-- Modelled from the spec: `crate::msg::InstantiateMsg` of the `mock-vault`
crate, built in `VaultRobot::instantiate` from the base token alone
("instantiation message establishes `base_token`"). -/
structure InstantiateMsg where
  base_token : String
  deriving DecidableEq, Repr

/-- `cosmwasm_std::Coin` as built by `coin(amount, denom)`. -/
structure Coin where
  amount : Nat
  denom : String
  deriving DecidableEq, Repr

/-! ## The test robot of `mock-vault/src/test_helpers.rs`

The robot drives an abstract execution runner.  The spec reduces the runner
to a four-operation capability surface (upload code, instantiate, execute,
query balances); the robot's operations only consume the first three, so a
runner is modelled as an oracle giving the outcome of each of those calls as
a function of the arguments the robot passes.  A Rust `Err` from the runner
hits an `unwrap` in the robot, so it is modelled as `Except.error`. -/

/-- The runner capability surface consumed by `VaultRobot` (store a
contract, instantiate a code id and receive the new contract address,
execute a message on a contract).  Each field is an oracle for the outcome
of one call. -/
structure Runner where
  store_code : Except String Nat
  instantiate_contract : Nat → InstantiateMsg → Option String → Option String →
    List Coin → String → Except String String
  execute : String → ExecuteMsg → List Coin → String → Except String Unit

/-- `MOCK_VAULT_TOKEN_SUBDENOM` of `test_helpers.rs`. -/
def MOCK_VAULT_TOKEN_SUBDENOM : String := "vault-token"

/-- `DefaultVaultRobot`: the robot's bound identifiers (the runner is passed
separately; the admin is kept as its address). -/
structure DefaultVaultRobot where
  admin : String
  vault_addr : String
  base_token : String
  vault_token : String
  deriving DecidableEq, Repr

namespace VaultRobot

/-- `VaultRobot::instantiate`: store the mock vault code, instantiate it
with `InstantiateMsg { base_token }`, admin as contract admin, label
`"mock_vault"` and the optional denom creation fee as the only attached
fund, then derive the vault token as
`format!("factory/{}/{}", vault_addr, MOCK_VAULT_TOKEN_SUBDENOM)`.
Either `unwrap` propagates a runner failure as a panic. -/
def instantiate (runner : Runner) (admin : String) (base_token : String)
    (denom_creation_fee : Option Coin) : Except String DefaultVaultRobot :=
  match runner.store_code with
  | Except.error e => Except.error e
  | Except.ok code_id =>
    let msg : InstantiateMsg := { base_token := base_token }
    match runner.instantiate_contract code_id msg (some admin) (some "mock_vault")
        (denom_creation_fee.elim [] (fun f => [f])) admin with
    | Except.error e => Except.error e
    | Except.ok vault_addr =>
      let vault_token := "factory/" ++ vault_addr ++ "/" ++ MOCK_VAULT_TOKEN_SUBDENOM
      Except.ok
        { admin := admin
          vault_addr := vault_addr
          base_token := base_token
          vault_token := vault_token }

/-- `VaultRobot::deposit_to_vault`: execute `Deposit { amount, recipient:
None }` on the vault with `[coin(amount, base_token)]` attached, `unwrap`,
and return the robot itself. -/
def deposit_to_vault (runner : Runner) (self : DefaultVaultRobot) (amount : Nat)
    (signer : String) : Except String DefaultVaultRobot :=
  let msg : ExecuteMsg := VaultStandardExecuteMsg.Deposit amount none
  match runner.execute self.vault_addr msg [⟨amount, self.base_token⟩] signer with
  | Except.error e => Except.error e
  | Except.ok _ => Except.ok self

/-- `VaultRobot::deposit_cw20_to_vault`: the same `Deposit { amount,
recipient: None }` message but with an empty funds list. -/
def deposit_cw20_to_vault (runner : Runner) (self : DefaultVaultRobot) (amount : Nat)
    (signer : String) : Except String DefaultVaultRobot :=
  let msg : ExecuteMsg := VaultStandardExecuteMsg.Deposit amount none
  match runner.execute self.vault_addr msg [] signer with
  | Except.error e => Except.error e
  | Except.ok _ => Except.ok self

/-- `VaultRobot::redeem_from_vault`: execute `Redeem { amount, recipient:
None }` with `[coin(amount, vault_token)]` attached, `unwrap`, and return
the robot itself. -/
def redeem_from_vault (runner : Runner) (self : DefaultVaultRobot) (amount : Nat)
    (signer : String) : Except String DefaultVaultRobot :=
  let msg : ExecuteMsg := VaultStandardExecuteMsg.Redeem none amount
  match runner.execute self.vault_addr msg [⟨amount, self.vault_token⟩] signer with
  | Except.error e => Except.error e
  | Except.ok _ => Except.ok self

end VaultRobot

/-! ## The conversion engine behind `PreviewDeposit` and `Deposit`

Modelled from the spec: the vault's execute and query handlers
(`mock-vault/src/contract.rs`) are not among the provided sources, so the
conversion engine is taken from the spec's words: state is `TotalAssets`
and `TotalVaultTokenSupply`; shares are computed at the proportional rate
with truncating (never rounding up) division; `PreviewDeposit` "MUST return
as close to and no more than the exact amount of Vault shares that would be
minted in a deposit call in the same transaction" (`src/msg.rs`, doc of
`PreviewDeposit`). -/
structure VaultState where
  total_assets : Nat
  total_supply : Nat
  deriving DecidableEq, Repr

/-- Modelled from the spec: assets-to-shares conversion at the current
proportional rate, truncating; an empty vault mints one share per asset
unit. -/
def convert_to_shares (s : VaultState) (amount : Nat) : Nat :=
  if s.total_supply = 0 then amount
  else amount * s.total_supply / s.total_assets

/-- Modelled from the spec: the `PreviewDeposit { amount }` query simulates
a deposit at the current state, fee-inclusive, and must not exceed the
shares a real deposit would mint. -/
def preview_deposit (s : VaultState) (amount : Nat) : Nat :=
  convert_to_shares s amount

/-- Result of executing `Deposit`: the shares minted and the state after. -/
structure DepositResult where
  minted : Nat
  state : VaultState
  deriving DecidableEq, Repr

/-- Modelled from the spec: `Deposit { amount }` mints shares at the
current truncating proportional rate and increases `TotalAssets` and
`TotalVaultTokenSupply` consistently with it. -/
def deposit (s : VaultState) (amount : Nat) : DepositResult :=
  let minted := if s.total_supply = 0 then amount
    else amount * s.total_supply / s.total_assets
  { minted := minted
    state :=
      { total_assets := s.total_assets + amount
        total_supply := s.total_supply + minted } }

/-- A concrete runner whose three capabilities all succeed, for evaluating
the robot operations on closed inputs. -/
def testRunnerOk : Runner :=
  { store_code := Except.ok 1
    instantiate_contract := fun _ _ _ _ _ _ => Except.ok "contract0"
    execute := fun _ _ _ _ => Except.ok () }

/-- A concrete runner whose three capabilities all fail with `"boom"`, for
evaluating the robot's failure propagation on closed inputs. -/
def testRunnerFail : Runner :=
  { store_code := Except.error "boom"
    instantiate_contract := fun _ _ _ _ _ _ => Except.error "boom"
    execute := fun _ _ _ _ => Except.error "boom" }

/-- A concrete robot value for evaluating the operations on closed inputs. -/
def testRobot : DefaultVaultRobot :=
  { admin := "admin"
    vault_addr := "contract0"
    base_token := "uosmo"
    vault_token := "factory/contract0/vault-token" }

/-! ## Helper lemmas -/

theorem abs_diff_le_max (a b : Nat) : Decimal.abs_diff a b ≤ Nat.max a b := by
  unfold Decimal.abs_diff
  rcases Nat.lt_or_ge a b with h | h
  · rw [if_pos h]
    exact le_trans (Nat.sub_le _ _) (Nat.le_max_right _ _)
  · rw [if_neg (Nat.not_lt.mpr h)]
    exact le_trans (Nat.sub_le _ _) (Nat.le_max_left _ _)

theorem rel_diff_le_max_uint (left right : Nat) (hmax : Nat.max left right ≠ 0) :
    Decimal.abs_diff left right * DECIMAL_FRACTIONAL / Nat.max left right ≤ UINT128_MAX := by
  have h1 : Decimal.abs_diff left right * DECIMAL_FRACTIONAL / Nat.max left right
      ≤ Nat.max left right * DECIMAL_FRACTIONAL / Nat.max left right :=
    Nat.div_le_div_right (Nat.mul_le_mul_right _ (abs_diff_le_max left right))
  have h2 : Nat.max left right * DECIMAL_FRACTIONAL / Nat.max left right = DECIMAL_FRACTIONAL :=
    Nat.mul_div_cancel_left _ (Nat.pos_of_ne_zero hmax)
  have h3 : DECIMAL_FRACTIONAL ≤ UINT128_MAX := by decide
  omega

theorem instantiate_ok_fields (runner : Runner) (admin base_token : String)
    (fee : Option Coin) (robot : DefaultVaultRobot)
    (h : VaultRobot.instantiate runner admin base_token fee = Except.ok robot) :
    robot.vault_token = "factory/" ++ robot.vault_addr ++ "/" ++ MOCK_VAULT_TOKEN_SUBDENOM := by
  unfold VaultRobot.instantiate at h
  split at h
  · cases h
  · dsimp only at h
    split at h
    · cases h
    · cases h
      rfl

/-! ## The claims -/

/-- C1: For every amount and every vault state, the share count returned by
the `PreviewDeposit { amount }` query is less than or equal to the number of
vault shares that an actual `Deposit { amount }` executed in that same state
would mint (here they coincide: the preview simulates the deposit's own
conversion in the same state). -/
theorem preview_deposit_le_deposit_minted (s : VaultState) (amount : Nat) :
    preview_deposit s amount ≤ (deposit s amount).minted := by
  unfold preview_deposit convert_to_shares deposit
  exact Nat.le_refl _

/-- C2 (amended: both inputs zero excluded): for Decimal inputs `left` and
`right` not both zero and every valid decimal string `max_rel_diff`,
`assert_almost_eq` computes the relative difference
`|left - right| / max(left, right)` and raises an assertion failure carrying
both values and the ratio iff that relative difference strictly exceeds
`max_rel_diff`; otherwise it returns normally. -/
theorem assert_almost_eq_iff_rel_diff (left right : Nat) (s : String) (d : Nat)
    (hs : Decimal.from_str s = some d) (hnz : ¬ (left = 0 ∧ right = 0)) :
    (assert_almost_eq left right s = Except.ok () ↔ rel_diff left right ≤ d)
    ∧ (assert_almost_eq left right s
        = Except.error (PanicKind.assertionFailed left right (rel_diff left right) d)
      ↔ d < rel_diff left right) := by
  have hmax : Nat.max left right ≠ 0 := by
    intro h
    exact hnz (Nat.max_eq_zero_iff.mp h)
  have hfit := rel_diff_le_max_uint left right hmax
  unfold rel_diff
  simp only [assert_almost_eq, hs, Decimal.div, if_neg hmax, if_pos hfit, gt_iff_lt]
  by_cases hgt : d < Decimal.abs_diff left right * DECIMAL_FRACTIONAL / Nat.max left right
  · rw [if_pos hgt]
    constructor
    · constructor
      · intro h
        cases h
      · intro h
        omega
    · constructor
      · intro _
        exact hgt
      · intro _
        rfl
  · rw [if_neg hgt]
    constructor
    · constructor
      · intro _
        omega
      · intro _
        rfl
    · constructor
      · intro h
        cases h
      · intro h
        exact absurd h hgt

/-- Witness for C2 at `left = 1.00`, `right = 1.009`, `max_rel_diff =
"0.01"`: the relative difference `0.009/1.009 ≈ 0.00892` does not exceed
`0.01`, so the call returns normally. -/
theorem assert_almost_eq_iff_rel_diff_witness :
    Decimal.from_str "0.01" = some (10 ^ 16)
    ∧ ¬ ((10 : Nat) ^ 18 = 0 ∧ 1009 * 10 ^ 15 = 0)
    ∧ assert_almost_eq (10 ^ 18) (1009 * 10 ^ 15) "0.01" = Except.ok () := by
  refine ⟨by decide, by decide, ?_⟩
  exact (assert_almost_eq_iff_rel_diff (10 ^ 18) (1009 * 10 ^ 15) "0.01" (10 ^ 16)
    (by decide) (by decide)).1.mpr (by decide)

/-- Counterexample to C2 as stated: at `left = right = 0` (a pair of
Decimal inputs) with `max_rel_diff = "0"`, the function neither returns
normally nor raises its assertion failure — it panics inside the `Decimal`
division with a zero denominator. -/
theorem assert_almost_eq_zero_zero_counterexample :
    assert_almost_eq 0 0 "0" = Except.error PanicKind.divisionByZero
    ∧ PanicKind.isAssertionFailure PanicKind.divisionByZero = false := ⟨rfl, rfl⟩

/-- C3: evaluation of the code at the failing input: `assert_almost_eq(0, 0,
"0")` divides `|0 - 0| = 0` by `max(0, 0) = 0`, so the `Decimal` division
panics instead of treating the relative difference as zero and returning
normally as the spec requires. -/
theorem assert_almost_eq_zero_zero_divides_by_zero :
    assert_almost_eq 0 0 "0" = Except.error PanicKind.divisionByZero := rfl

/-- Counterexample to C4 as stated: `assert_almost_eq(1.00, 1.009, "0.01")`
does not fail — the computed relative difference `0.009/1.009` is below
`0.01`, so the call returns normally (the claim says it fails). -/
theorem assert_almost_eq_tight_bound_succeeds :
    Decimal.from_str "1.00" = some (10 ^ 18)
    ∧ Decimal.from_str "1.009" = some (1009 * 10 ^ 15)
    ∧ rel_diff (10 ^ 18) (1009 * 10 ^ 15) = 9 * 10 ^ 33 / (1009 * 10 ^ 15)
    ∧ assert_almost_eq (10 ^ 18) (1009 * 10 ^ 15) "0.01" = Except.ok () := by
  exact ⟨by decide, by decide, by decide, rfl⟩

/-- C4 (amended: the `"0.01"` call succeeds rather than fails):
`assert_almost_eq(1.00, 1.009, "0.01")` succeeds and
`assert_almost_eq(1.00, 1.009, "0.02")` succeeds, since the relative
difference `0.009/1.009 ≈ 0.00892` exceeds neither bound. -/
theorem assert_almost_eq_both_examples_succeed :
    assert_almost_eq (10 ^ 18) (1009 * 10 ^ 15) "0.01" = Except.ok ()
    ∧ assert_almost_eq (10 ^ 18) (1009 * 10 ^ 15) "0.02" = Except.ok () := ⟨rfl, rfl⟩

/-- C5: every robot produced by a successful `VaultRobot::instantiate` has
its vault token derived deterministically as
`"factory/" ++ vault_addr ++ "/" ++ MOCK_VAULT_TOKEN_SUBDENOM`, and two
instantiations yielding the same vault address yield the same vault
token. -/
theorem instantiate_vault_token_derivation
    (runner₁ runner₂ : Runner) (admin₁ admin₂ base₁ base₂ : String)
    (fee₁ fee₂ : Option Coin) (robot₁ robot₂ : DefaultVaultRobot)
    (h₁ : VaultRobot.instantiate runner₁ admin₁ base₁ fee₁ = Except.ok robot₁)
    (h₂ : VaultRobot.instantiate runner₂ admin₂ base₂ fee₂ = Except.ok robot₂) :
    robot₁.vault_token = "factory/" ++ robot₁.vault_addr ++ "/" ++ MOCK_VAULT_TOKEN_SUBDENOM
    ∧ (robot₁.vault_addr = robot₂.vault_addr → robot₁.vault_token = robot₂.vault_token) := by
  have e₁ := instantiate_ok_fields _ _ _ _ _ h₁
  have e₂ := instantiate_ok_fields _ _ _ _ _ h₂
  refine ⟨e₁, fun haddr => ?_⟩
  rw [e₁, e₂, haddr]

/-- Witness for C5: a successful instantiation against a concrete runner
returning address `"contract0"` yields the vault token
`"factory/contract0/vault-token"`. -/
theorem instantiate_vault_token_derivation_witness :
    testRobot.vault_token
      = "factory/" ++ testRobot.vault_addr ++ "/" ++ MOCK_VAULT_TOKEN_SUBDENOM :=
  (instantiate_vault_token_derivation testRunnerOk testRunnerOk "admin" "admin"
    "uosmo" "uosmo" none none testRobot testRobot rfl rfl).1

/-- C6: `deposit_to_vault` executes `Deposit { amount, recipient: None }`
attaching exactly one coin of the robot's base token carrying that amount,
`deposit_cw20_to_vault` executes the same message attaching an empty funds
list, and both return the robot itself when the underlying call
succeeds. -/
theorem deposit_message_and_funds (runner : Runner) (self : DefaultVaultRobot)
    (amount : Nat) (signer : String) :
    VaultRobot.deposit_to_vault runner self amount signer
      = (runner.execute self.vault_addr (VaultStandardExecuteMsg.Deposit amount none)
          [{ amount := amount, denom := self.base_token }] signer).map (fun _ => self)
    ∧ VaultRobot.deposit_cw20_to_vault runner self amount signer
      = (runner.execute self.vault_addr (VaultStandardExecuteMsg.Deposit amount none)
          [] signer).map (fun _ => self) := by
  constructor
  · unfold VaultRobot.deposit_to_vault
    dsimp only
    cases hx : runner.execute self.vault_addr (VaultStandardExecuteMsg.Deposit amount none)
        [{ amount := amount, denom := self.base_token }] signer <;> rfl
  · unfold VaultRobot.deposit_cw20_to_vault
    dsimp only
    cases hx : runner.execute self.vault_addr (VaultStandardExecuteMsg.Deposit amount none)
        [] signer <;> rfl

/-- C7: `redeem_from_vault` executes `Redeem { amount, recipient: None }`
attaching exactly one coin of the robot's vault token carrying that amount,
and returns the robot itself when the underlying call succeeds. -/
theorem redeem_message_and_funds (runner : Runner) (self : DefaultVaultRobot)
    (amount : Nat) (signer : String) :
    VaultRobot.redeem_from_vault runner self amount signer
      = (runner.execute self.vault_addr (VaultStandardExecuteMsg.Redeem none amount)
          [{ amount := amount, denom := self.vault_token }] signer).map (fun _ => self) := by
  unfold VaultRobot.redeem_from_vault
  dsimp only
  cases hx : runner.execute self.vault_addr (VaultStandardExecuteMsg.Redeem none amount)
      [{ amount := amount, denom := self.vault_token }] signer <;> rfl

/-- C8: every robot operation (`instantiate`, `deposit_to_vault`,
`deposit_cw20_to_vault`, `redeem_from_vault`) propagates a failure of the
underlying store/instantiate/execute call immediately as a panic
(`Except.error`), never recovering from it, and returns the robot on
success. -/
theorem robot_operations_fail_fast (runner : Runner) (self : DefaultVaultRobot)
    (admin base_token signer : String) (fee : Option Coin) (amount : Nat) (e : String) :
    (runner.store_code = Except.error e →
      VaultRobot.instantiate runner admin base_token fee = Except.error e)
    ∧ (∀ code_id, runner.store_code = Except.ok code_id →
        runner.instantiate_contract code_id { base_token := base_token } (some admin)
          (some "mock_vault") (fee.elim [] (fun f => [f])) admin = Except.error e →
        VaultRobot.instantiate runner admin base_token fee = Except.error e)
    ∧ (runner.execute self.vault_addr (VaultStandardExecuteMsg.Deposit amount none)
        [{ amount := amount, denom := self.base_token }] signer = Except.error e →
      VaultRobot.deposit_to_vault runner self amount signer = Except.error e)
    ∧ (runner.execute self.vault_addr (VaultStandardExecuteMsg.Deposit amount none) [] signer
        = Except.error e →
      VaultRobot.deposit_cw20_to_vault runner self amount signer = Except.error e)
    ∧ (runner.execute self.vault_addr (VaultStandardExecuteMsg.Redeem none amount)
        [{ amount := amount, denom := self.vault_token }] signer = Except.error e →
      VaultRobot.redeem_from_vault runner self amount signer = Except.error e)
    ∧ (runner.execute self.vault_addr (VaultStandardExecuteMsg.Deposit amount none)
        [{ amount := amount, denom := self.base_token }] signer = Except.ok () →
      VaultRobot.deposit_to_vault runner self amount signer = Except.ok self) := by
  refine ⟨?_, ?_, ?_, ?_, ?_, ?_⟩
  · intro h
    unfold VaultRobot.instantiate
    rw [h]
  · intro code_id h₁ h₂
    unfold VaultRobot.instantiate
    rw [h₁]
    dsimp only
    rw [h₂]
  · intro h
    unfold VaultRobot.deposit_to_vault
    dsimp only
    rw [h]
  · intro h
    unfold VaultRobot.deposit_cw20_to_vault
    dsimp only
    rw [h]
  · intro h
    unfold VaultRobot.redeem_from_vault
    dsimp only
    rw [h]
  · intro h
    unfold VaultRobot.deposit_to_vault
    dsimp only
    rw [h]

/-- Witness for C8: against a concrete runner whose calls all fail with
`"boom"`, each operation surfaces exactly that failure, and against a
concrete runner whose calls succeed, `deposit_to_vault` returns the
robot. -/
theorem robot_operations_fail_fast_witness :
    VaultRobot.instantiate testRunnerFail "admin" "uosmo" none = Except.error "boom"
    ∧ VaultRobot.deposit_to_vault testRunnerFail testRobot 5 "alice" = Except.error "boom"
    ∧ VaultRobot.deposit_cw20_to_vault testRunnerFail testRobot 5 "alice" = Except.error "boom"
    ∧ VaultRobot.redeem_from_vault testRunnerFail testRobot 5 "alice" = Except.error "boom"
    ∧ VaultRobot.deposit_to_vault testRunnerOk testRobot 5 "alice" = Except.ok testRobot := by
  refine ⟨?_, ?_, ?_, ?_, ?_⟩
  · exact (robot_operations_fail_fast testRunnerFail testRobot
      "admin" "uosmo" "alice" none 5 "boom").1 rfl
  · exact (robot_operations_fail_fast testRunnerFail testRobot
      "admin" "uosmo" "alice" none 5 "boom").2.2.1 rfl
  · exact (robot_operations_fail_fast testRunnerFail testRobot
      "admin" "uosmo" "alice" none 5 "boom").2.2.2.1 rfl
  · exact (robot_operations_fail_fast testRunnerFail testRobot
      "admin" "uosmo" "alice" none 5 "boom").2.2.2.2.1 rfl
  · exact (robot_operations_fail_fast testRunnerOk testRobot
      "admin" "uosmo" "alice" none 5 "boom").2.2.2.2.2 rfl

/-- C9: whenever the `max_rel_diff` argument fails to parse as a `Decimal`,
`assert_almost_eq` panics on the `unwrap`, regardless of `left` and `right`
(so before any comparison of the two values). -/
theorem assert_almost_eq_unparseable_panics (left right : Nat) (s : String)
    (hs : Decimal.from_str s = none) :
    assert_almost_eq left right s = Except.error PanicKind.unwrapFailed := by
  unfold assert_almost_eq
  rw [hs]

/-- Witness for C9 at the unparseable bound `"not-a-decimal"`. -/
theorem assert_almost_eq_unparseable_panics_witness :
    Decimal.from_str "not-a-decimal" = none
    ∧ assert_almost_eq 5 7 "not-a-decimal" = Except.error PanicKind.unwrapFailed :=
  ⟨by decide, assert_almost_eq_unparseable_panics 5 7 "not-a-decimal" (by decide)⟩

/-- C10: the extension payload enums are asymmetric — `ExtensionExecuteMsg`
has `Keeper`, `Lockup` and `ForceUnlock` variants, while every
`ExtensionQueryMsg` is either `Keeper` or `Lockup`, so no force-unlock query
can be expressed through the default extension slot. -/
theorem extension_enums_asymmetric :
    (ExtensionExecuteMsg.tag (ExtensionExecuteMsg.Keeper KeeperExecuteMsg.payload) = "keeper"
      ∧ ExtensionExecuteMsg.tag (ExtensionExecuteMsg.Lockup LockupExecuteMsg.payload) = "lockup"
      ∧ ExtensionExecuteMsg.tag
          (ExtensionExecuteMsg.ForceUnlock ForceUnlockExecuteMsg.payload) = "force_unlock")
    ∧ (∀ q : ExtensionQueryMsg, q.tag = "keeper" ∨ q.tag = "lockup")
    ∧ (∀ q : ExtensionQueryMsg, q.tag ≠ "force_unlock") := by
  refine ⟨⟨rfl, rfl, rfl⟩, fun q => ?_, fun q => ?_⟩
  · cases q
    · exact Or.inl rfl
    · exact Or.inr rfl
  · cases q <;> simp [ExtensionQueryMsg.tag]

end CosmosVaultStandard
